import Mathlib

/-!
Verification of the UST (underground storage tank) CSV ingestion pipeline
(`scripts/import_ust.py`) against its specification.

The pipeline is embedded shallowly:
* a CSV row is a `List String` of positional fields (the csv reader's output);
* Python exceptions (`IndexError` from `row[i]`, `ValueError` from
  `int`/`float`/`strptime`, the explicit zero-accepted `ValueError`) become an
  `Except ImpError` result;
* the external collaborators (clock, uszipcode lookup, s2cell token) are fields
  of an `Env` record, since they are pure per input during one run;
* `datetime` values are embedded as integers via an order-preserving encoding
  of calendar dates (`dateCode`), which is faithful for everything the program
  does with dates: equality tests and chronological comparison in the sort;
* the InfluxDB client is modelled by the trace of store calls the run issues
  (`Event.delete` / `Event.write` / `Event.flush`) and by a `Point` value that
  records exactly the builder calls of the source.
-/

/-- Python whitespace recognised by `str.strip()`. -/
def isPySpace (c : Char) : Bool :=
  c == ' ' || c == '\t' || c == '\n' || c == '\r' || c == '\x0b' || c == '\x0c'

/-- Model of Python `str.strip()`: drop whitespace from both ends. -/
def pyStrip (s : String) : String :=
  ⟨((s.data.dropWhile isPySpace).reverse.dropWhile isPySpace).reverse⟩

/-- Numeric value of a list of decimal digit characters. -/
def digitsVal (cs : List Char) : Nat :=
  cs.foldl (fun a c => a * 10 + (c.toNat - 48)) 0

/-- All characters are decimal digits. -/
def allDigits (cs : List Char) : Bool :=
  cs.all Char.isDigit

/-- Model of Python `int(s)` on an already-stripped string: an optional sign
followed by one or more decimal digits (digit-group underscores, which never
occur in this dataset, are out of the modelled scope). Returns `none` where
Python raises `ValueError`. Note that a leading `-` is accepted: Python's
`int` parses negative literals. -/
def pyIntChars : List Char → Option Int
  | [] => none
  | '+' :: rest => if !rest.isEmpty && allDigits rest then some (digitsVal rest : Int) else none
  | '-' :: rest => if !rest.isEmpty && allDigits rest then some (-(digitsVal rest : Int)) else none
  | cs => if allDigits cs then some (digitsVal cs : Int) else none

def pyInt (s : String) : Option Int :=
  pyIntChars s.data

/-- Ten to the `n` on naturals (explicit, so terms reduce without typeclass
indirection). -/
def pow10 (n : Nat) : Nat :=
  Nat.pow 10 n

/-- Exponent suffix of a Python float literal: optional sign and a nonempty
digit run; scales the value `mant / den` by the corresponding power of ten. -/
def pyFloatExp (mant : Int) (den : Nat) (r : List Char) : Option Rat :=
  let sgnRest : Bool × List Char :=
    match r with
    | '+' :: t => (false, t)
    | '-' :: t => (true, t)
    | t => (false, t)
  if !sgnRest.2.isEmpty && allDigits sgnRest.2 then
    let e := digitsVal sgnRest.2
    if sgnRest.1 then some (mkRat mant (den * pow10 e))
    else some (mkRat (mant * (Int.ofNat (pow10 e))) den)
  else none

/-- Mantissa with optional exponent: `digits[.digits]` or `.digits`;
`neg` is a leading minus sign. -/
def pyFloatBody (neg : Bool) (cs : List Char) : Option Rat :=
  let ip := cs.takeWhile Char.isDigit
  let cs1 := cs.dropWhile Char.isDigit
  let withFrac : List Char × List Char :=
    match cs1 with
    | '.' :: r => (r.takeWhile Char.isDigit, r.dropWhile Char.isDigit)
    | _ => ([], cs1)
  let hadDot : Bool := match cs1 with | '.' :: _ => true | _ => false
  if ip.isEmpty && (!hadDot || withFrac.1.isEmpty) then none
  else
    let fp := withFrac.1
    let mantNat : Nat := digitsVal ip * pow10 fp.length + digitsVal fp
    let mant : Int := if neg then -(Int.ofNat mantNat) else Int.ofNat mantNat
    let den : Nat := pow10 fp.length
    match withFrac.2 with
    | [] => some (mkRat mant den)
    | 'e' :: r => pyFloatExp mant den r
    | 'E' :: r => pyFloatExp mant den r
    | _ => none

/-- Model of Python `float(s)` on the decimal-literal forms occurring in this
dataset: optional sign, digits with optional fraction, optional exponent.
The value is kept exact as a rational; `inf`/`nan` spellings, underscores and
double-rounding/underflow of extreme literals are out of the modelled scope
(the program only passes coordinate values through and truth-tests them).
Returns `none` where Python raises `ValueError`. -/
def pyFloat (s : String) : Option Rat :=
  match s.data with
  | '+' :: rest => pyFloatBody false rest
  | '-' :: rest => pyFloatBody true rest
  | cs => pyFloatBody false cs

/-- Gregorian leap-year rule, as used by Python `datetime`. -/
def isLeap (y : Nat) : Bool :=
  y % 4 == 0 && (y % 100 != 0 || y % 400 == 0)

/-- Length of month `m` of year `y` (Python `datetime` validation). -/
def daysInMonth (y m : Nat) : Nat :=
  if m = 2 then (if isLeap y then 29 else 28)
  else if m = 4 ∨ m = 6 ∨ m = 9 ∨ m = 11 then 30 else 31

/-- Order-preserving integer encoding of a calendar date: strictly monotone in
lexicographic (year, month, day), which coincides with chronological order on
valid dates. The program never does date arithmetic, so only order and
equality of the encoding matter. -/
def dateCode (y m d : Nat) : Int :=
  ((y * 372 + (m - 1) * 31 + (d - 1) : Nat) : Int)

/-- Model of `START_OF_TIME_DATE = datetime.fromisoformat("1970-01-01")`: the fixed
epoch sentinel assigned when no recency signal exists. -/
def START_OF_TIME_DATE : Int :=
  dateCode 1970 1 1

/-- Split a character list on `'/'` separators. -/
def splitSlash : List Char → List Char → List (List Char)
  | acc, [] => [acc.reverse]
  | acc, c :: rest =>
    if c = '/' then acc.reverse :: splitSlash [] rest
    else splitSlash (c :: acc) rest

/-- Model of `datetime.strptime(s, "%m/%d/%Y")`: month and day of one or two
digits (values 1–12 and 1–31, zero-padded or not), a year of exactly four
digits, `/` separators, nothing else; the day is then validated against the
month length exactly as the `datetime` constructor does. Returns the
`dateCode` of the parsed date, or `none` where Python raises `ValueError`. -/
def parseMDY (s : String) : Option Int :=
  match splitSlash [] s.data with
  | [mcs, dcs, ycs] =>
    if allDigits mcs && !mcs.isEmpty && mcs.length ≤ 2
        && allDigits dcs && !dcs.isEmpty && dcs.length ≤ 2
        && allDigits ycs && ycs.length == 4 then
      let m := digitsVal mcs
      let d := digitsVal dcs
      let y := digitsVal ycs
      if 1 ≤ m ∧ m ≤ 12 ∧ 1 ≤ d ∧ d ≤ daysInMonth y m ∧ 1 ≤ y then
        some (dateCode y m d)
      else none
    else none
  | _ => none

/-- Substring test on character lists (helper for `reSearchInUse`). -/
def strContainsAux (pat : List Char) : List Char → Bool
  | [] => pat.isEmpty
  | c :: rest => pat.isPrefixOf (c :: rest) || strContainsAux pat rest

/-- Model of `re.search('In Use', status)`: the pattern has no regex
metacharacters, so the search is exactly a case-sensitive substring test. -/
def reSearchInUse (status : String) : Bool :=
  strContainsAux "In Use".data status.data

/-- One CSV row as produced by the csv reader: an ordered list of text
fields. The dataset's rows have 27 fields; the program reads positions
0 (ID), 3 (CITY), 4 (ZIP), 6 (STATUS), 8 (ESTIMATED_TOTAL_CAPACITY),
9 (SUBSTANCE_STORED), 10 (LAST_USED_DATE), 11 (CLOSURE_TYPE),
14 (CONSTRUCTION_TYPE_PIPING), 16 (INSTALLATION_DATE),
17 (SPILL_PROTECTION), 18 (OVERFILL_PROTECTION), 19 (LATITUDE),
20 (LONGITUDE), per the `UstToken` enumeration. -/
abbrev Row := List String

/-- The run-aborting exceptions of the source: `IndexError` from `row[i]`
out of range, `ValueError` from `int`/`float`/`strptime`, and the explicit
`ValueError("Not a single row was parsed. Aborting!")`. -/
inductive ImpError where
  | indexError
  | valueError
  | noTanks
deriving DecidableEq, Repr

deriving instance DecidableEq for Except

/-- Result of `uszipcode.SearchEngine.by_zipcode` when it finds a zipcode:
a `SimpleZipcode` whose `lat`/`lng` attributes may themselves be absent. -/
structure ZipResult where
  lat : Option Rat
  lng : Option Rat
deriving DecidableEq, Repr

/-- The external collaborators of one run, each pure per input during the
run: the wall clock sampled by `datetime.now()`, the zipcode lookup, and the
deterministic `s2cell.lat_lon_to_token` encoder. -/
structure Env where
  now : Int
  zipLookup : String → Option ZipResult
  s2Token : Rat → Rat → Nat → String

/-- The constant `S2_LEVEL = 10`. -/
def S2_LEVEL : Nat := 10

/-- The `TankPoint` dataclass: the 12 attributes kept from a row. -/
structure TankPoint where
  city : String
  closure_type : String
  construction_type : String
  overfill_protection : String
  spill_protection : String
  status : String
  substance_stored : String
  estimated_total_capacity : Int
  s2_cell_id_token : String
  lat : Rat
  lon : Rat
  last_used_date : Int
deriving DecidableEq, Repr

/-- Model of `row[i]`: the field at position `i`, or Python's `IndexError` when the
row is too short. -/
def getF (r : Row) (i : Nat) : Except ImpError String :=
  match r[i]? with
  | some s => .ok s
  | none => .error .indexError

/-- Wrapper for `datetime.strptime(s, "%m/%d/%Y")` as the source uses it: a parse
failure is a raised `ValueError`. -/
def strptimeMDY (s : String) : Except ImpError Int :=
  match parseMDY s with
  | some d => .ok d
  | none => .error .valueError

/-- The literal header of the dataset's first column, compared exactly. -/
def headerId : String := "UST Site ID Number"

/-- Lines 167–175: resolution of the last-used timestamp. A non-empty
`LAST_USED_DATE` (index 10) is parsed as month/day/year; otherwise a status
(index 6) containing "In Use" yields `datetime.now()`; otherwise a non-empty
`INSTALLATION_DATE` (index 16) is parsed as month/day/year; otherwise the
epoch sentinel is used. -/
def resolveLastUsed (env : Env) (r : Row) : Except ImpError Int :=
  match getF r 10 with
  | .error e => .error e
  | .ok f10 =>
    if f10 = "" then
      match getF r 6 with
      | .error e => .error e
      | .ok f6 =>
        if reSearchInUse f6 then .ok env.now
        else
          match getF r 16 with
          | .error e => .error e
          | .ok f16 =>
            if f16 ≠ "" then strptimeMDY f16
            else .ok START_OF_TIME_DATE
    else strptimeMDY f10

/-- The eight scalar attributes read at lines 176–183. -/
structure Scalars where
  city : String
  closure_type : String
  construction_type : String
  estimated_total_capacity : Int
  spill_protection : String
  overfill_protection : String
  substance_stored : String
  status : String
deriving DecidableEq, Repr

/-- Lines 176–183, in source order: city, closure type, piping construction
type, capacity (`int(field.strip())`, a `ValueError` when non-numeric),
spill protection, overfill protection, substance stored, status — each text
field stripped of surrounding whitespace. -/
def readScalars (r : Row) : Except ImpError Scalars :=
  match getF r 3 with
  | .error e => .error e
  | .ok c3 =>
  match getF r 11 with
  | .error e => .error e
  | .ok c11 =>
  match getF r 14 with
  | .error e => .error e
  | .ok c14 =>
  match getF r 8 with
  | .error e => .error e
  | .ok c8 =>
  match pyInt (pyStrip c8) with
  | none => .error .valueError
  | some cap =>
  match getF r 17 with
  | .error e => .error e
  | .ok c17 =>
  match getF r 18 with
  | .error e => .error e
  | .ok c18 =>
  match getF r 9 with
  | .error e => .error e
  | .ok c9 =>
  match getF r 6 with
  | .error e => .error e
  | .ok c6 =>
    .ok ⟨pyStrip c3, pyStrip c11, pyStrip c14, cap,
         pyStrip c17, pyStrip c18, pyStrip c9, pyStrip c6⟩

/-- Lines 196–200: the postal-code fallback. A non-empty ZIP (index 4) is
looked up; a hit contributes whatever `lat`/`lng` the result carries (either
may be absent); a miss or an empty ZIP contributes no coordinates. -/
def zipFallback (env : Env) (r : Row) : Except ImpError (Option Rat × Option Rat) :=
  match getF r 4 with
  | .error e => .error e
  | .ok f4 =>
    if f4 ≠ "" then
      match env.zipLookup f4 with
      | some zr => .ok (zr.lat, zr.lng)
      | none => .ok (none, none)
    else .ok (none, none)

/-- Lines 191–202: location resolution. `if row[LATITUDE] and
row[LONGITUDE]:` — the longitude field is only read when the latitude field
is non-empty (Python `and` short-circuits); when both are non-empty both are
parsed as floats (a `ValueError` aborts), otherwise the ZIP fallback runs. -/
def resolveCoords (env : Env) (r : Row) : Except ImpError (Option Rat × Option Rat) :=
  match getF r 19 with
  | .error e => .error e
  | .ok f19 =>
    if f19 ≠ "" then
      match getF r 20 with
      | .error e => .error e
      | .ok f20 =>
        if f20 ≠ "" then
          match pyFloat f19 with
          | none => .error .valueError
          | some la =>
            match pyFloat f20 with
            | none => .error .valueError
            | some lo => .ok (some la, some lo)
        else zipFallback env r
    else zipFallback env r

/-- The `TankPoint(...)` construction at lines 205–218. -/
def mkTank (env : Env) (sc : Scalars) (la lo : Rat) (lastUsed : Int) : TankPoint :=
  { city := sc.city
    closure_type := sc.closure_type
    construction_type := sc.construction_type
    overfill_protection := sc.overfill_protection
    spill_protection := sc.spill_protection
    status := sc.status
    substance_stored := sc.substance_stored
    estimated_total_capacity := sc.estimated_total_capacity
    s2_cell_id_token := env.s2Token la lo S2_LEVEL
    lat := la
    lon := lo
    last_used_date := lastUsed }

/-- The `if lat and lon:` gate (line 203) applied to the resolved
coordinate pair — Python truthiness, so an absent coordinate AND a
coordinate equal to `0.0` both fail the gate; on success the record is
constructed (lines 204–219). -/
def gateTank (env : Env) (sc : Scalars) (lastUsed : Int) :
    Option Rat × Option Rat → Option TankPoint
  | (some la, some lo) =>
    if la ≠ 0 ∧ lo ≠ 0 then some (mkTank env sc la lo lastUsed) else none
  | (some _, none) => none
  | (none, _) => none

/-- Lines 163–223 for a non-header row: timestamp resolution, scalar reads,
location resolution, then the truthiness gate. `some t` is an accepted
record, `none` a soft rejection. -/
def decodeBody (env : Env) (r : Row) : Except ImpError (Option TankPoint) :=
  match resolveLastUsed env r with
  | .error e => .error e
  | .ok lastUsed =>
  match readScalars r with
  | .error e => .error e
  | .ok sc =>
  match resolveCoords env r with
  | .error e => .error e
  | .ok pr => .ok (gateTank env sc lastUsed pr)

/-- Outcome of one loop iteration for one row. -/
inductive Outcome where
  | header
  | accepted (t : TankPoint)
  | rejected
deriving DecidableEq, Repr

/-- Lines 158–230 for one row: the header check (`row[UstToken.ID] ==
"UST Site ID Number"` — exact string equality, `continue` on match), then
the decode body; any raised error propagates (the `except ValueError`
handler re-raises). -/
def decodeRow (env : Env) (r : Row) : Except ImpError Outcome :=
  match getF r 0 with
  | .error e => .error e
  | .ok f0 =>
    if f0 = headerId then .ok .header
    else
      match decodeBody env r with
      | .error e => .error e
      | .ok (some t) => .ok (.accepted t)
      | .ok none => .ok .rejected

/-- The parse loop: accepted records accumulate in input order (`tanks`),
soft rejections increment `ignored`, the first raised error aborts the
whole loop. -/
def processRows (env : Env) : List Row → Except ImpError (List TankPoint × Nat)
  | [] => .ok ([], 0)
  | r :: rest =>
    match decodeRow env r with
    | .error e => .error e
    | .ok .header => processRows env rest
    | .ok (.accepted t) =>
      match processRows env rest with
      | .error e => .error e
      | .ok (ts, ign) => .ok (t :: ts, ign)
    | .ok .rejected =>
      match processRows env rest with
      | .error e => .error e
      | .ok (ts, ign) => .ok (ts, ign + 1)

/-- Insertion step of the record ordering: place `t` before the first
element whose key is at most `t`'s, keeping earlier-input elements with an
equal key ahead of later ones. -/
def insertDesc (t : TankPoint) : List TankPoint → List TankPoint
  | [] => [t]
  | x :: xs =>
    if x.last_used_date ≤ t.last_used_date then t :: x :: xs
    else x :: insertDesc t xs

/-- Model of `tanks.sort(key=lambda p: p.last_used_date, reverse=True)`, line 235.
Python's sort is stable and, with `reverse=True`, orders keys descending
while keeping equal-key elements in input order; a stable descending sort is
extensionally unique, so it is modelled by this stable insertion sort. -/
def sortTanks : List TankPoint → List TankPoint
  | [] => []
  | x :: xs => insertDesc x (sortTanks xs)

/-- An InfluxDB point field value: the source writes one integer field and
two float fields. -/
inductive FieldVal where
  | i (v : Int)
  | f (v : Rat)
deriving DecidableEq, Repr

/-- The `WritePrecision` values of the client library (the source uses `S`). -/
inductive WritePrecision where
  | S
  | MS
  | US
  | NS
deriving DecidableEq, Repr

/-- An InfluxDB `Point` as assembled by the builder calls: the measurement
name, the tag and field key/value sequences in call order, and the
timestamp with its precision. All keys used by the source are distinct, so
the sequence model coincides with the client's key/value-map model. -/
structure Point where
  measurement : String
  tags : List (String × String)
  fields : List (String × FieldVal)
  time : Option (Int × WritePrecision)
deriving DecidableEq, Repr

/-- Builder start `Point(measurement)`. -/
def Point.ofMeasurement (m : String) : Point :=
  ⟨m, [], [], none⟩

/-- Builder call `.tag(key, value)`. -/
def Point.tag (p : Point) (k v : String) : Point :=
  { p with tags := p.tags ++ [(k, v)] }

/-- Builder call `.field(key, value)`. -/
def Point.fieldKV (p : Point) (k : String) (v : FieldVal) : Point :=
  { p with fields := p.fields ++ [(k, v)] }

/-- Builder call `.time(value, precision)`. -/
def Point.timeAt (p : Point) (t : Int) (prec : WritePrecision) : Point :=
  { p with time := some (t, prec) }

/-- Lines 240–251: the builder chain from one accepted record to the point
written for it, with the calls in source order. -/
def tankToPoint (t : TankPoint) : Point :=
  ((((((((((Point.ofMeasurement "fuel_tanks").tag "city" t.city).tag
    "closure_type" t.closure_type).tag
    "construction_type" t.construction_type).fieldKV
    "estimated_total_capacity" (.i t.estimated_total_capacity)).tag
    "spill_protection" t.spill_protection).tag
    "overfill_protection" t.overfill_protection).tag
    "substance_stored" t.substance_stored).tag
    "s2_cell_id" t.s2_cell_id_token).fieldKV
    "lat" (.f t.lat)).fieldKV
    "lon" (.f t.lon) |>.timeAt t.last_used_date .S

/-- One call issued to the destination store during a run. -/
inductive Event where
  | delete
  | write (p : Point)
  | flush
deriving DecidableEq, Repr

/-- Model of `import_data` (lines 84–260), observed through its store calls and its
outcome: when `truncate` is set the delete is issued first (lines 143–147,
before any row is read); the rows are then parsed; an empty accepted set
raises `ValueError("Not a single row was parsed. Aborting!")` (line 232);
otherwise the accepted records are sorted, written one point each in sorted
order, flushed, and the final (imported, ignored) counts reported. -/
def importData (env : Env) (rows : List Row) (truncate : Bool := true) :
    List Event × Except ImpError (Nat × Nat) :=
  let pre : List Event := if truncate then [.delete] else []
  match processRows env rows with
  | .error e => (pre, .error e)
  | .ok (tanks, ignored) =>
    if tanks.isEmpty then (pre, .error .noTanks)
    else
      let sorted := sortTanks tanks
      (pre ++ sorted.map (fun t => .write (tankToPoint t)) ++ [.flush],
       .ok (sorted.length, ignored))

/-- Holds exactly when the row's first field is the literal column header. -/
def isHeaderRow (r : Row) : Bool :=
  decide (r[0]? = some headerId)

/-- The point written for an event, if it is a write. -/
def writtenPoint : Event → Option Point
  | .write p => some p
  | _ => none

/-- Capacity of an accepted outcome, if any (observation helper). -/
def capOf : Except ImpError Outcome → Option Int
  | .ok (.accepted t) => some t.estimated_total_capacity
  | _ => none

/-- A concrete environment for witness runs: a fixed clock, a lookup that
knows the single zipcode `"06101"`, and a constant cell token. -/
def envA : Env :=
  { now := 9999999
    zipLookup := fun z => if z = "06101" then some ⟨some 41, some (-72)⟩ else none
    s2Token := fun _ _ _ => "tok" }

/-- The header row of the dataset (only field 0 is examined by the skip). -/
def rowHeader : Row :=
  ["UST Site ID Number", "Site Name", "Site Address", "Site City", "Site Zip",
   "Tank No.", "Status of Tank", "Compartment",
   "Estimated Total Capacity (gallons)", "Substance Currently Stored",
   "Last Used Date", "Closure Type", "Construction Type - Tank",
   "Tank Details", "Construction Type - Piping", "Piping Details",
   "Installation Date", "Spill Protection", "Overfill Protection",
   "Tank Latitude", "Tank Longitude", "Tank Collection Method",
   "Tank Reference Point Type", "UST Site Latitude", "UST Site Longitude",
   "Site Collection Method", "Site Reference Point Type"]

/-- A well-formed 27-field data row with direct coordinates. -/
def rowGood : Row :=
  ["1", "SiteA", "1 Main St", " Hartford ", "06101", "1", "Currently In Use",
   "NO", "1000", "Gasoline", "05/10/2021", "", "Steel", "", "Steel", "", "",
   "None", "None", "41.5", "-72.5", "", "", "", "", "", ""]

/-- The record `rowGood` decodes to under `envA`. -/
def tankGood : TankPoint :=
  { city := "Hartford"
    closure_type := ""
    construction_type := "Steel"
    overfill_protection := "None"
    spill_protection := "None"
    status := "Currently In Use"
    substance_stored := "Gasoline"
    estimated_total_capacity := 1000
    s2_cell_id_token := "tok"
    lat := mkRat 83 2
    lon := mkRat (-145) 2
    last_used_date := dateCode 2021 5 10 }

/-- Variant of `rowGood` with coordinates and zip all empty: soft-rejected. -/
def rowReject : Row :=
  (((rowGood.set 19 "").set 20 "").set 4 "")

/-- Variant of `rowGood` with latitude field `"0"`: both coordinate fields non-empty
and parseable, yet `0.0` is falsy in Python. -/
def rowZeroLat : Row :=
  rowGood.set 19 "0"

/-- Variant of `rowGood` with capacity field `"-5"`. -/
def rowNegCap : Row :=
  rowGood.set 8 "-5"

/-- Variant of `rowGood` with an unparsable last-used field. -/
def rowBadDate : Row :=
  rowGood.set 10 "13/45/20"

/-- Variant of `rowGood` with an empty last-used field and an "In Use" status. -/
def rowHeuristicNow : Row :=
  (rowGood.set 10 "").set 16 "01/02/2003"

/-- Variant of `rowGood` with empty last-used, a status not containing "In Use", and an
empty installation date. -/
def rowHeuristicEpoch : Row :=
  (((rowGood.set 10 "").set 6 "Permanently Closed").set 16 "")

/-- Python truthiness of a resolved coordinate slot: `None` and `0.0` are
falsy, every other float is truthy (the `if lat and lon:` gate). -/
def optTruthy : Option Rat → Bool
  | none => false
  | some v => decide (v ≠ 0)

/-- Variant of `rowGood` with the longitude field empty (latitude still present). -/
def rowLonEmpty : Row :=
  rowGood.set 20 ""

/-- The record `rowNegCap` decodes to under `envA`. -/
def tankNegCap : TankPoint :=
  { tankGood with estimated_total_capacity := -5 }

/-! ## Helper lemmas: the record ordering -/

theorem insertDesc_perm (t : TankPoint) (l : List TankPoint) :
    (insertDesc t l).Perm (t :: l) := by
  induction l with
  | nil => simp [insertDesc]
  | cons x xs ih =>
    simp only [insertDesc]
    split
    · exact List.Perm.refl _
    · exact (ih.cons x).trans (List.Perm.swap t x xs)

theorem sortTanks_perm (l : List TankPoint) : (sortTanks l).Perm l := by
  induction l with
  | nil => simp [sortTanks]
  | cons x xs ih =>
    exact (insertDesc_perm x (sortTanks xs)).trans (ih.cons x)

theorem insertDesc_pairwise {t : TankPoint} {l : List TankPoint}
    (h : l.Pairwise (fun a b => b.last_used_date ≤ a.last_used_date)) :
    (insertDesc t l).Pairwise (fun a b => b.last_used_date ≤ a.last_used_date) := by
  induction l with
  | nil => simp [insertDesc]
  | cons x xs ih =>
    rcases List.pairwise_cons.mp h with ⟨hx, hxs⟩
    simp only [insertDesc]
    split
    case isTrue hle =>
      refine List.pairwise_cons.mpr ⟨?_, h⟩
      intro y hy
      rcases List.mem_cons.mp hy with rfl | hy'
      · exact hle
      · exact le_trans (hx y hy') hle
    case isFalse hle =>
      refine List.pairwise_cons.mpr ⟨?_, ih hxs⟩
      intro y hy
      have hmem : y = t ∨ y ∈ xs := by
        have := (insertDesc_perm t xs).mem_iff.mp hy
        simpa using this
      rcases hmem with rfl | hy'
      · exact le_of_not_le hle
      · exact hx y hy'

theorem sortTanks_pairwise (l : List TankPoint) :
    (sortTanks l).Pairwise (fun a b => b.last_used_date ≤ a.last_used_date) := by
  induction l with
  | nil => simp [sortTanks]
  | cons x xs ih => exact insertDesc_pairwise ih

theorem insertDesc_filter_neg {t : TankPoint} {l : List TankPoint}
    {p : TankPoint → Bool} (hp : p t = false) :
    (insertDesc t l).filter p = l.filter p := by
  induction l with
  | nil => simp [insertDesc, hp]
  | cons x xs ih =>
    simp only [insertDesc]
    split
    · simp [List.filter_cons, hp]
    · simp [List.filter_cons, ih]

theorem insertDesc_filter_pos {ts : Int} {t : TankPoint} {l : List TankPoint}
    (ht : t.last_used_date = ts) :
    (insertDesc t l).filter (fun x => decide (x.last_used_date = ts))
      = t :: l.filter (fun x => decide (x.last_used_date = ts)) := by
  induction l with
  | nil => simp [insertDesc, ht]
  | cons x xs ih =>
    simp only [insertDesc]
    split
    case isTrue hle => simp [List.filter_cons, ht]
    case isFalse hle =>
      have hxne : (x.last_used_date = ts) = False := by
        simp only [eq_iff_iff, iff_false]
        intro hxs
        exact hle (by rw [hxs, ← ht])
      simp [List.filter_cons, hxne, ih]

theorem sortTanks_filter (ts : Int) (l : List TankPoint) :
    (sortTanks l).filter (fun x => decide (x.last_used_date = ts))
      = l.filter (fun x => decide (x.last_used_date = ts)) := by
  induction l with
  | nil => rfl
  | cons x xs ih =>
    simp only [sortTanks]
    by_cases hx : x.last_used_date = ts
    · rw [insertDesc_filter_pos hx, ih]
      simp [List.filter_cons, hx]
    · rw [insertDesc_filter_neg (by simp [hx]), ih]
      simp [List.filter_cons, hx]

/-! ## Helper lemmas: the row decoder -/

theorem getF_ok {r : Row} {i : Nat} {s : String} (h : r[i]? = some s) :
    getF r i = .ok s := by
  unfold getF
  rw [h]

theorem getF_ok_inv {r : Row} {i : Nat} {s : String} (h : getF r i = .ok s) :
    r[i]? = some s := by
  unfold getF at h
  cases hg : r[i]? with
  | none => rw [hg] at h; cases h
  | some v => rw [hg] at h; cases h; rfl

theorem decodeBody_eq (env : Env) (r : Row) {lastUsed : Int} {sc : Scalars}
    {pr : Option Rat × Option Rat}
    (h1 : resolveLastUsed env r = .ok lastUsed)
    (h2 : readScalars r = .ok sc)
    (h3 : resolveCoords env r = .ok pr) :
    decodeBody env r = .ok (gateTank env sc lastUsed pr) := by
  unfold decodeBody
  rw [h1, h2, h3]

theorem decodeBody_ok_inv (env : Env) (r : Row) (x : Option TankPoint)
    (h : decodeBody env r = .ok x) :
    ∃ lastUsed sc pr,
      resolveLastUsed env r = .ok lastUsed ∧ readScalars r = .ok sc ∧
      resolveCoords env r = .ok pr ∧ x = gateTank env sc lastUsed pr := by
  unfold decodeBody at h
  cases h1 : resolveLastUsed env r with
  | error e => rw [h1] at h; cases h
  | ok lastUsed =>
    rw [h1] at h
    cases h2 : readScalars r with
    | error e => rw [h2] at h; cases h
    | ok sc =>
      rw [h2] at h
      cases h3 : resolveCoords env r with
      | error e => rw [h3] at h; cases h
      | ok pr =>
        rw [h3] at h
        cases h
        exact ⟨lastUsed, sc, pr, rfl, rfl, rfl, rfl⟩

theorem decodeRow_nonheader (env : Env) (r : Row) {f0 : String}
    (h0 : r[0]? = some f0) (hne : f0 ≠ headerId) :
    decodeRow env r =
      (match decodeBody env r with
       | .error e => .error e
       | .ok (some t) => .ok (.accepted t)
       | .ok none => .ok .rejected) := by
  unfold decodeRow
  rw [getF_ok h0]
  exact if_neg hne

theorem decodeRow_accepted_body (env : Env) (r : Row) (t : TankPoint)
    (h : decodeRow env r = .ok (.accepted t)) :
    decodeBody env r = .ok (some t) := by
  unfold decodeRow at h
  cases hg : getF r 0 with
  | error e => rw [hg] at h; cases h
  | ok f0 =>
    rw [hg] at h
    simp only [] at h
    by_cases h0 : f0 = headerId
    · rw [if_pos h0] at h; cases h
    · rw [if_neg h0] at h
      cases hb : decodeBody env r with
      | error e => rw [hb] at h; cases h
      | ok x =>
        rw [hb] at h
        cases x with
        | none => cases h
        | some t' => cases h; rfl

theorem decodeRow_header_isHeader (env : Env) (r : Row)
    (h : decodeRow env r = .ok .header) : isHeaderRow r = true := by
  unfold decodeRow at h
  cases hg : getF r 0 with
  | error e => rw [hg] at h; cases h
  | ok f0 =>
    rw [hg] at h
    simp only [] at h
    by_cases h0 : f0 = headerId
    · subst h0
      simp [isHeaderRow, getF_ok_inv hg]
    · rw [if_neg h0] at h
      cases hb : decodeBody env r with
      | error e => rw [hb] at h; cases h
      | ok x => rw [hb] at h; cases x <;> cases h

theorem decodeRow_ok_nonheader_isHeader (env : Env) (r : Row) (o : Outcome)
    (h : decodeRow env r = .ok o) (hno : o ≠ .header) : isHeaderRow r = false := by
  unfold decodeRow at h
  cases hg : getF r 0 with
  | error e => rw [hg] at h; cases h
  | ok f0 =>
    rw [hg] at h
    simp only [] at h
    by_cases h0 : f0 = headerId
    · rw [if_pos h0] at h
      cases h
      exact absurd rfl hno
    · simp [isHeaderRow, getF_ok_inv hg, h0]

/-! ## Helper lemmas: the parse loop -/

theorem processRows_counts (env : Env) :
    ∀ rows tanks ign, processRows env rows = .ok (tanks, ign) →
      tanks.length + ign = rows.countP (fun r => !isHeaderRow r) := by
  intro rows
  induction rows with
  | nil =>
    intro tanks ign h
    unfold processRows at h
    cases h
    simp
  | cons r rest ih =>
    intro tanks ign h
    unfold processRows at h
    cases hd : decodeRow env r with
    | error e => rw [hd] at h; cases h
    | ok o =>
      rw [hd] at h
      cases o with
      | header =>
        simp only [] at h
        rw [List.countP_cons_of_neg _ _ (by simp [decodeRow_header_isHeader env r hd])]
        exact ih tanks ign h
      | accepted t =>
        simp only [] at h
        cases hp : processRows env rest with
        | error e => rw [hp] at h; cases h
        | ok st =>
          obtain ⟨ts, ign2⟩ := st
          rw [hp] at h
          have hih := ih ts ign2 hp
          cases h
          rw [List.countP_cons_of_pos _ _
            (by simp [decodeRow_ok_nonheader_isHeader env r _ hd (by simp)])]
          simp only [List.length_cons]
          omega
      | rejected =>
        simp only [] at h
        cases hp : processRows env rest with
        | error e => rw [hp] at h; cases h
        | ok st =>
          obtain ⟨ts, ign2⟩ := st
          rw [hp] at h
          have hih := ih ts ign2 hp
          cases h
          rw [List.countP_cons_of_pos _ _
            (by simp [decodeRow_ok_nonheader_isHeader env r _ hd (by simp)])]
          omega

theorem processRows_append_error (env : Env) :
    ∀ (pre : List Row) (st : List TankPoint × Nat) (r : Row) (post : List Row)
      (e : ImpError), processRows env pre = .ok st → decodeRow env r = .error e →
      processRows env (pre ++ r :: post) = .error e := by
  intro pre
  induction pre with
  | nil =>
    intro st r post e _ hd
    simp only [List.nil_append]
    unfold processRows
    rw [hd]
  | cons p pre ih =>
    intro st r post e h hd
    unfold processRows at h
    simp only [List.cons_append]
    unfold processRows
    cases hp : decodeRow env p with
    | error e' => rw [hp] at h; cases h
    | ok o =>
      rw [hp] at h
      cases o with
      | header =>
        simp only [] at h ⊢
        exact ih st r post e h hd
      | accepted t =>
        simp only [] at h ⊢
        cases hq : processRows env pre with
        | error e' => rw [hq] at h; cases h
        | ok st' =>
          rw [ih st' r post e hq hd]
      | rejected =>
        simp only [] at h ⊢
        cases hq : processRows env pre with
        | error e' => rw [hq] at h; cases h
        | ok st' =>
          rw [ih st' r post e hq hd]

/-! ## Helper lemmas: branch behaviour of the decode stages -/

theorem resolveLastUsed_present (env : Env) (r : Row) {f10 : String}
    (h10 : r[10]? = some f10) (hne : f10 ≠ "") :
    resolveLastUsed env r = strptimeMDY f10 := by
  unfold resolveLastUsed
  rw [getF_ok h10]
  exact if_neg hne

theorem resolveLastUsed_now (env : Env) (r : Row) {f10 f6 : String}
    (h10 : r[10]? = some f10) (he : f10 = "")
    (h6 : r[6]? = some f6) (hiu : reSearchInUse f6 = true) :
    resolveLastUsed env r = .ok env.now := by
  simp [resolveLastUsed, getF_ok h10, getF_ok h6, he, hiu]

theorem resolveLastUsed_install (env : Env) (r : Row) {f10 f6 f16 : String}
    (h10 : r[10]? = some f10) (he : f10 = "")
    (h6 : r[6]? = some f6) (hiu : reSearchInUse f6 = false)
    (h16 : r[16]? = some f16) (hne16 : f16 ≠ "") :
    resolveLastUsed env r = strptimeMDY f16 := by
  simp [resolveLastUsed, getF_ok h10, getF_ok h6, getF_ok h16, he, hiu, hne16]

theorem resolveLastUsed_epoch (env : Env) (r : Row) {f10 f6 f16 : String}
    (h10 : r[10]? = some f10) (he : f10 = "")
    (h6 : r[6]? = some f6) (hiu : reSearchInUse f6 = false)
    (h16 : r[16]? = some f16) (he16 : f16 = "") :
    resolveLastUsed env r = .ok START_OF_TIME_DATE := by
  simp [resolveLastUsed, getF_ok h10, getF_ok h6, getF_ok h16, he, hiu, he16]

theorem resolveCoords_direct (env : Env) (r : Row) {f19 f20 : String} {la lo : Rat}
    (h19 : r[19]? = some f19) (h20 : r[20]? = some f20)
    (hne19 : f19 ≠ "") (hne20 : f20 ≠ "")
    (hla : pyFloat f19 = some la) (hlo : pyFloat f20 = some lo) :
    resolveCoords env r = .ok (some la, some lo) := by
  simp [resolveCoords, getF_ok h19, getF_ok h20, hne19, hne20, hla, hlo]

theorem resolveCoords_lat_empty (env : Env) (r : Row) {f19 : String}
    (h19 : r[19]? = some f19) (he19 : f19 = "") :
    resolveCoords env r = zipFallback env r := by
  simp [resolveCoords, getF_ok h19, he19]

theorem resolveCoords_lon_empty (env : Env) (r : Row) {f19 f20 : String}
    (h19 : r[19]? = some f19) (hne19 : f19 ≠ "")
    (h20 : r[20]? = some f20) (he20 : f20 = "") :
    resolveCoords env r = zipFallback env r := by
  simp [resolveCoords, getF_ok h19, getF_ok h20, hne19, he20]

theorem readScalars_error_capacity (r : Row) {f3 f11 f14 f8 : String}
    (h3 : r[3]? = some f3) (h11 : r[11]? = some f11) (h14 : r[14]? = some f14)
    (h8 : r[8]? = some f8) (hcap : pyInt (pyStrip f8) = none) :
    readScalars r = .error .valueError := by
  simp [readScalars, getF_ok h3, getF_ok h11, getF_ok h14, getF_ok h8, hcap]

theorem readScalars_capacity (r : Row) (sc : Scalars) {f8 : String}
    (h : readScalars r = .ok sc) (h8 : r[8]? = some f8) :
    pyInt (pyStrip f8) = some sc.estimated_total_capacity := by
  unfold readScalars at h
  cases hg3 : getF r 3 with
  | error e => rw [hg3] at h; cases h
  | ok c3 =>
  rw [hg3] at h
  simp only [] at h
  cases hg11 : getF r 11 with
  | error e => rw [hg11] at h; cases h
  | ok c11 =>
  rw [hg11] at h
  simp only [] at h
  cases hg14 : getF r 14 with
  | error e => rw [hg14] at h; cases h
  | ok c14 =>
  rw [hg14] at h
  simp only [] at h
  cases hg8 : getF r 8 with
  | error e => rw [hg8] at h; cases h
  | ok c8 =>
  rw [hg8] at h
  simp only [] at h
  have hc8 : c8 = f8 := by
    have := getF_ok_inv hg8
    rw [h8] at this
    cases this
    rfl
  subst hc8
  cases hcap : pyInt (pyStrip c8) with
  | none => rw [hcap] at h; cases h
  | some cap =>
  rw [hcap] at h
  simp only [] at h
  cases hg17 : getF r 17 with
  | error e => rw [hg17] at h; cases h
  | ok c17 =>
  rw [hg17] at h
  simp only [] at h
  cases hg18 : getF r 18 with
  | error e => rw [hg18] at h; cases h
  | ok c18 =>
  rw [hg18] at h
  simp only [] at h
  cases hg9 : getF r 9 with
  | error e => rw [hg9] at h; cases h
  | ok c9 =>
  rw [hg9] at h
  simp only [] at h
  cases hg6 : getF r 6 with
  | error e => rw [hg6] at h; cases h
  | ok c6 =>
  rw [hg6] at h
  simp only [] at h
  cases h
  rfl

theorem decodeBody_error_lastUsed (env : Env) (r : Row) {e : ImpError}
    (h : resolveLastUsed env r = .error e) : decodeBody env r = .error e := by
  unfold decodeBody
  rw [h]

theorem decodeBody_error_scalars (env : Env) (r : Row) {e : ImpError} {lu : Int}
    (h1 : resolveLastUsed env r = .ok lu)
    (h2 : readScalars r = .error e) : decodeBody env r = .error e := by
  unfold decodeBody
  rw [h1, h2]

theorem decodeRow_error_body (env : Env) (r : Row) {f0 : String} {e : ImpError}
    (h0 : r[0]? = some f0) (hne : f0 ≠ headerId)
    (hb : decodeBody env r = .error e) : decodeRow env r = .error e := by
  rw [decodeRow_nonheader env r h0 hne, hb]

theorem decodeRow_ok_body (env : Env) (r : Row) (o : Outcome) {f0 : String}
    (h0 : r[0]? = some f0) (hne : f0 ≠ headerId)
    (h : decodeRow env r = .ok o) :
    ∃ x, decodeBody env r = .ok x ∧
      o = (match x with | some t => Outcome.accepted t | none => Outcome.rejected) := by
  rw [decodeRow_nonheader env r h0 hne] at h
  cases hb : decodeBody env r with
  | error e => rw [hb] at h; cases h
  | ok x =>
    rw [hb] at h
    refine ⟨x, rfl, ?_⟩
    cases x with
    | none => simp only [] at h; cases h; rfl
    | some t => simp only [] at h; cases h; rfl

theorem filterMap_written_writes (ps : List TankPoint) :
    List.filterMap (writtenPoint ∘ fun t => Event.write (tankToPoint t)) ps
      = List.map tankToPoint ps := by
  induction ps with
  | nil => rfl
  | cons p ps ih => simp [List.filterMap_cons, writtenPoint, Function.comp, ih]

/-! ## Claim theorems -/

/-- C1, counterexample: on a header-only input with truncate enabled, the
run aborts with the zero-accepted fatal error, yet the truncate delete call
HAS already been issued to the store — the delete is not guarded by the
zero-accepted check, contradicting the claim that neither the delete nor
any write is issued before at least one record is accepted. -/
theorem c1_counterexample :
    Event.delete ∈ (importData envA [rowHeader] true).1 ∧
    (importData envA [rowHeader] true).2 = .error .noTanks := by
  decide

/-- C1, amended: whenever the run aborts with a fatal error (in particular
when zero records were accepted), no write call and no flush call has been
issued to the store; the truncate delete, however, is issued at the very
start of the run, before any row is decoded, and so happens regardless of
how many records end up accepted. -/
theorem c1_no_store_write_on_abort (env : Env) (rows : List Row) (trunc : Bool)
    (e : ImpError) (h : (importData env rows trunc).2 = .error e) :
    (∀ p, Event.write p ∉ (importData env rows trunc).1) ∧
    Event.flush ∉ (importData env rows trunc).1 := by
  have htr : (importData env rows trunc).1 = (if trunc then [Event.delete] else []) := by
    cases hp : processRows env rows with
    | error e2 => simp [importData, hp]
    | ok st =>
      obtain ⟨tanks, ign⟩ := st
      by_cases he : tanks.isEmpty
      · simp [importData, hp, he]
      · exfalso
        simp [importData, hp, he] at h
  rw [htr]
  constructor
  · intro p hmem
    cases trunc <;> simp at hmem
  · intro hmem
    cases trunc <;> simp at hmem

/-- C1, witness for the amended theorem at a concrete input. -/
theorem c1_witness :
    Event.flush ∉ (importData envA [rowHeader] true).1 :=
  (c1_no_store_write_on_abort envA [rowHeader] true ImpError.noTanks (by decide)).2

/-- C4: the ordering stage returns a permutation of the accepted records,
sorted by last-used timestamp descending, and the sort is stable — for every
timestamp the subsequence of records carrying it is exactly the input
subsequence, in input (decode) order. -/
theorem c4_sort_stable_desc (l : List TankPoint) :
    (sortTanks l).Perm l ∧
    (sortTanks l).Pairwise (fun a b => b.last_used_date ≤ a.last_used_date) ∧
    ∀ ts : Int, (sortTanks l).filter (fun x => decide (x.last_used_date = ts))
      = l.filter (fun x => decide (x.last_used_date = ts)) :=
  ⟨sortTanks_perm l, sortTanks_pairwise l, fun ts => sortTanks_filter ts l⟩

/-- C8: the record-to-point mapping is total and pure (a function), carries
measurement "fuel_tanks", exactly the seven tags city, closure_type,
construction_type, spill_protection, overfill_protection, substance_stored
and s2_cell_id, exactly the three fields estimated_total_capacity (integer),
lat and lon (floats), and the record's last-used timestamp at second
precision; and a successful run writes exactly one such point per accepted
record, in sorted order. -/
theorem c8_point_mapping :
    (∀ t : TankPoint, tankToPoint t =
      { measurement := "fuel_tanks"
        tags := [("city", t.city), ("closure_type", t.closure_type),
                 ("construction_type", t.construction_type),
                 ("spill_protection", t.spill_protection),
                 ("overfill_protection", t.overfill_protection),
                 ("substance_stored", t.substance_stored),
                 ("s2_cell_id", t.s2_cell_id_token)]
        fields := [("estimated_total_capacity", FieldVal.i t.estimated_total_capacity),
                   ("lat", FieldVal.f t.lat), ("lon", FieldVal.f t.lon)]
        time := some (t.last_used_date, WritePrecision.S) }) ∧
    (∀ env rows trunc tanks ign, processRows env rows = .ok (tanks, ign) →
      tanks ≠ [] →
      (importData env rows trunc).1.filterMap writtenPoint
        = (sortTanks tanks).map tankToPoint) := by
  constructor
  · intro t
    rfl
  · intro env rows trunc tanks ign hp hne
    have he : tanks.isEmpty = false := by
      simp [List.isEmpty_iff, hne]
    cases trunc <;>
      simp [importData, hp, he, List.filterMap_append, filterMap_written_writes,
        writtenPoint]

/-- C8, witness for the run part at a concrete input. -/
theorem c8_witness :
    (importData envA [rowGood] true).1.filterMap writtenPoint
      = (sortTanks [tankGood]).map tankToPoint :=
  c8_point_mapping.2 envA [rowGood] true [tankGood] 0 (by decide) (by decide)

/-- C6: on a successful run every processed non-header row lands in exactly
one of the two counters, so the reported imported count plus the ignored
count equals the number of non-header rows, and rows whose first field is
the literal header string are excluded from both counts. -/
theorem c6_counts (env : Env) (rows : List Row) (trunc : Bool)
    (count ignored : Nat)
    (h : (importData env rows trunc).2 = .ok (count, ignored)) :
    count + ignored = rows.countP (fun r => !isHeaderRow r) := by
  cases hp : processRows env rows with
  | error e =>
    exfalso
    simp [importData, hp] at h
  | ok st =>
    obtain ⟨tanks, ign⟩ := st
    by_cases he : tanks.isEmpty
    · exfalso
      simp [importData, hp, he] at h
    · have hcnt := processRows_counts env rows tanks ign hp
      have hlen : (sortTanks tanks).length = tanks.length :=
        (sortTanks_perm tanks).length_eq
      simp [importData, hp, he] at h
      obtain ⟨hc, hi⟩ := h
      omega

/-- C6, witness: a run over a header row, an accepted row and a rejected row
reports 1 imported plus 1 ignored, equal to the 2 non-header rows. -/
theorem c6_witness :
    1 + 1 = [rowHeader, rowGood, rowReject].countP (fun r => !isHeaderRow r) :=
  c6_counts envA [rowHeader, rowGood, rowReject] true 1 1 (by decide)

/-- C3: resolution of the last-used timestamp follows the ordered decision
table — for an empty last-used field: a status containing "In Use" yields
the current processing time (even when an installation date is present); a
present installation date is otherwise parsed month/day/year; otherwise the
epoch sentinel is used; a non-empty last-used field is always parsed
month/day/year. -/
theorem c3_last_used_heuristic (env : Env) (r : Row) (f10 f6 f16 : String)
    (h10 : r[10]? = some f10) (h6 : r[6]? = some f6) (h16 : r[16]? = some f16) :
    (f10 = "" → reSearchInUse f6 = true → resolveLastUsed env r = .ok env.now) ∧
    (f10 = "" → reSearchInUse f6 = false → f16 ≠ "" →
      resolveLastUsed env r = strptimeMDY f16) ∧
    (f10 = "" → reSearchInUse f6 = false → f16 = "" →
      resolveLastUsed env r = .ok START_OF_TIME_DATE) ∧
    (f10 ≠ "" → resolveLastUsed env r = strptimeMDY f10) :=
  ⟨fun he hiu => resolveLastUsed_now env r h10 he h6 hiu,
   fun he hiu hne => resolveLastUsed_install env r h10 he h6 hiu h16 hne,
   fun he hiu he16 => resolveLastUsed_epoch env r h10 he h6 hiu h16 he16,
   fun hne => resolveLastUsed_present env r h10 hne⟩

/-- C3, witness: a row with empty last-used, status "Currently In Use" and
installation date "01/02/2003" resolves to the clock value, not to the
installation date. -/
theorem c3_witness :
    resolveLastUsed envA rowHeuristicNow = .ok envA.now ∧
    resolveLastUsed envA rowHeuristicEpoch = .ok START_OF_TIME_DATE :=
  ⟨(c3_last_used_heuristic envA rowHeuristicNow "" "Currently In Use" "01/02/2003"
      (by decide) (by decide) (by decide)).1 rfl (by decide),
   (c3_last_used_heuristic envA rowHeuristicEpoch "" "Permanently Closed" ""
      (by decide) (by decide) (by decide)).2.2.1 rfl (by decide) rfl⟩

/-- C2, counterexample: a row whose latitude and longitude source fields are
both non-empty and parse as floats ("0" and "-72.5"), with all other fields
in order, is nevertheless soft-rejected, because the acceptance gate uses
Python truthiness and `0.0` is falsy — refuting both the "accepts the row"
part and the "rejected only if no coordinates were resolved" part. -/
theorem c2_counterexample :
    rowZeroLat[19]? = some "0" ∧ rowZeroLat[20]? = some "-72.5" ∧
    pyFloat "0" = some 0 ∧ pyFloat "-72.5" = some (mkRat (-145) 2) ∧
    resolveCoords envA rowZeroLat = .ok (some 0, some (mkRat (-145) 2)) ∧
    decodeRow envA rowZeroLat = .ok .rejected := by
  decide

/-- C2, amended: for a non-header row that decodes without a fatal error,
the row is soft-rejected exactly when the resolved coordinate pair fails the
truthiness gate (one coordinate unresolved, or resolved as zero); and when
both coordinate source fields are non-empty and parse to nonzero floats, the
row is accepted with exactly those coordinates. -/
theorem c2_direct_coords (env : Env) (r : Row) (o : Outcome) (f0 : String)
    (h0 : r[0]? = some f0) (hne : f0 ≠ headerId)
    (ho : decodeRow env r = .ok o) :
    (∀ pla plo, resolveCoords env r = .ok (pla, plo) →
      (o = .rejected ↔ (optTruthy pla && optTruthy plo) = false)) ∧
    (∀ f19 f20 la lo, r[19]? = some f19 → r[20]? = some f20 →
      f19 ≠ "" → f20 ≠ "" → pyFloat f19 = some la → pyFloat f20 = some lo →
      la ≠ 0 → lo ≠ 0 →
      ∃ t, o = .accepted t ∧ t.lat = la ∧ t.lon = lo) := by
  obtain ⟨x, hb, hox⟩ := decodeRow_ok_body env r o h0 hne ho
  obtain ⟨lu, sc, pr, h1, h2, h3, hx⟩ := decodeBody_ok_inv env r x hb
  constructor
  · intro pla plo hc
    rw [h3] at hc
    cases hc
    subst hx
    subst hox
    cases pla with
    | none => simp [gateTank, optTruthy]
    | some la =>
      cases plo with
      | none => simp [gateTank, optTruthy]
      | some lo =>
        by_cases hz : la ≠ 0 ∧ lo ≠ 0
        · have hgt : gateTank env sc lu (some la, some lo)
              = some (mkTank env sc la lo lu) := by
            simp [gateTank, hz.1, hz.2]
          rw [hgt]
          simp [optTruthy, hz.1, hz.2]
        · have hgt : gateTank env sc lu (some la, some lo) = none := by
            simp only [gateTank, if_neg hz]
          rw [hgt]
          simp only [optTruthy]
          constructor
          · intro _
            by_cases hza : la = 0
            · simp [hza]
            · have hzb : lo = 0 := by tauto
              simp [hzb]
          · intro _
            trivial
  · intro f19 f20 la lo h19 h20 hne19 hne20 hla hlo hza hzb
    have hcoords := resolveCoords_direct env r h19 h20 hne19 hne20 hla hlo
    rw [h3] at hcoords
    cases hcoords
    subst hx
    refine ⟨mkTank env sc la lo lu, ?_, rfl, rfl⟩
    rw [hox]
    simp [gateTank, hza, hzb]

/-- C2, witness for the amended acceptance clause at a concrete input. -/
theorem c2_witness :
    ∃ t, Outcome.accepted tankGood = Outcome.accepted t ∧
      t.lat = mkRat 83 2 ∧ t.lon = mkRat (-145) 2 :=
  (c2_direct_coords envA rowGood (.accepted tankGood) "1" (by decide) (by decide)
      (by decide)).2 "41.5" "-72.5" (mkRat 83 2) (mkRat (-145) 2)
    (by decide) (by decide) (by decide) (by decide) (by decide) (by decide)
    (by decide) (by decide)

/-- C5, counterexample: a row whose capacity field is "-5" is accepted and
the constructed record carries the negative capacity -5 — `int()` parses
negative literals and nothing rejects them, refuting non-negativity. -/
theorem c5_counterexample :
    capOf (decodeRow envA rowNegCap) = some (-5) ∧ ((-5 : Int) < 0) := by
  decide

/-- C5, amended: every constructed record's estimated total capacity is
exactly the integer parsed (Python `int` semantics, sign included) from the
stripped capacity field; it is not constrained to be non-negative. -/
theorem c5_capacity_parsed (env : Env) (r : Row) (t : TankPoint) (f8 : String)
    (h : decodeRow env r = .ok (.accepted t)) (h8 : r[8]? = some f8) :
    pyInt (pyStrip f8) = some t.estimated_total_capacity := by
  have hb := decodeRow_accepted_body env r t h
  obtain ⟨lu, sc, pr, h1, h2, h3, hx⟩ := decodeBody_ok_inv env r _ hb
  have hcap := readScalars_capacity r sc h2 h8
  obtain ⟨pla, plo⟩ := pr
  cases pla with
  | none => simp [gateTank] at hx
  | some la =>
    cases plo with
    | none => simp [gateTank] at hx
    | some lo =>
      by_cases hz : la ≠ 0 ∧ lo ≠ 0
      · rw [show gateTank env sc lu (some la, some lo)
            = some (mkTank env sc la lo lu) by simp [gateTank, hz.1, hz.2]] at hx
        cases hx
        simpa [mkTank] using hcap
      · rw [show gateTank env sc lu (some la, some lo) = none by
            simp only [gateTank, if_neg hz]] at hx
        cases hx

/-- C5, witness for the amended theorem at a concrete input. -/
theorem c5_witness :
    pyInt (pyStrip "-5") = some tankNegCap.estimated_total_capacity :=
  c5_capacity_parsed envA rowNegCap tankNegCap "-5" (by decide) (by decide)

/-- C9: an accepted record never has a partial location — the location
resolution produced both coordinates (truthy, hence in particular present:
on the zip fallback a lookup hit with a missing latitude or longitude fails
the gate and the row is rejected, constructing nothing), and the record
carries exactly the resolved pair. -/
theorem c9_no_partial_location (env : Env) (r : Row) (t : TankPoint)
    (h : decodeRow env r = .ok (.accepted t)) :
    resolveCoords env r = .ok (some t.lat, some t.lon) ∧ t.lat ≠ 0 ∧ t.lon ≠ 0 := by
  have hb := decodeRow_accepted_body env r t h
  obtain ⟨lu, sc, pr, h1, h2, h3, hx⟩ := decodeBody_ok_inv env r _ hb
  obtain ⟨pla, plo⟩ := pr
  cases pla with
  | none => simp [gateTank] at hx
  | some la =>
    cases plo with
    | none => simp [gateTank] at hx
    | some lo =>
      by_cases hz : la ≠ 0 ∧ lo ≠ 0
      · rw [show gateTank env sc lu (some la, some lo)
            = some (mkTank env sc la lo lu) by simp [gateTank, hz.1, hz.2]] at hx
        cases hx
        exact ⟨h3, hz.1, hz.2⟩
      · rw [show gateTank env sc lu (some la, some lo) = none by
            simp only [gateTank, if_neg hz]] at hx
        cases hx

/-- C9, witness at a concrete accepted row. -/
theorem c9_witness :
    resolveCoords envA rowGood = .ok (some tankGood.lat, some tankGood.lon) ∧
    tankGood.lat ≠ 0 ∧ tankGood.lon ≠ 0 :=
  c9_no_partial_location envA rowGood tankGood (by decide)

/-- C10: when exactly one coordinate source field is non-empty, the direct
path is skipped entirely — location resolution equals the zip fallback, so
the present coordinate's content is never parsed or used — and if that
fallback yields no coordinates, a decoded row is header-skipped or rejected,
never accepted. -/
theorem c10_single_coord (env : Env) (r : Row) (f19 f20 : String)
    (h19 : r[19]? = some f19) (h20 : r[20]? = some f20)
    (hx : (f19 = "" ∧ f20 ≠ "") ∨ (f19 ≠ "" ∧ f20 = "")) :
    resolveCoords env r = zipFallback env r ∧
    (zipFallback env r = .ok (none, none) →
      ∀ o, decodeRow env r = .ok o → o = .header ∨ o = .rejected) := by
  have hrc : resolveCoords env r = zipFallback env r := by
    rcases hx with ⟨he, _⟩ | ⟨hne, he⟩
    · exact resolveCoords_lat_empty env r h19 he
    · exact resolveCoords_lon_empty env r h19 hne h20 he
  refine ⟨hrc, ?_⟩
  intro hzf o ho
  cases o with
  | header => exact Or.inl rfl
  | rejected => exact Or.inr rfl
  | accepted t =>
    exfalso
    have hb := decodeRow_accepted_body env r t ho
    obtain ⟨lu, sc, pr, h1, h2, h3, hgx⟩ := decodeBody_ok_inv env r _ hb
    rw [hrc, hzf] at h3
    cases h3
    simp [gateTank] at hgx

/-- C10, witness: latitude present, longitude empty at a concrete row. -/
theorem c10_witness :
    resolveCoords envA rowLonEmpty = zipFallback envA rowLonEmpty ∧
    (zipFallback envA rowLonEmpty = .ok (none, none) →
      ∀ o, decodeRow envA rowLonEmpty = .ok o → o = .header ∨ o = .rejected) :=
  c10_single_coord envA rowLonEmpty "41.5" "" (by decide) (by decide)
    (Or.inr ⟨by decide, rfl⟩)

/-- C7: a present-but-unparsable last-used field, a present-but-unparsable
installation date used as its substitute, or a non-numeric capacity field
each raise a fatal error for the whole run rather than a soft rejection:
the decode errors, and once a row errors the loop result is that error, no
matter how many rows follow. -/
theorem c7_fatal_parse (env : Env) :
    (∀ r f0 f10, r[0]? = some f0 → f0 ≠ headerId → r[10]? = some f10 →
      f10 ≠ "" → parseMDY f10 = none → decodeRow env r = .error .valueError) ∧
    (∀ r f0 f10 f6 f16, r[0]? = some f0 → f0 ≠ headerId → r[10]? = some f10 →
      f10 = "" → r[6]? = some f6 → reSearchInUse f6 = false →
      r[16]? = some f16 → f16 ≠ "" → parseMDY f16 = none →
      decodeRow env r = .error .valueError) ∧
    (∀ r f0 lu f3 f11 f14 f8, r[0]? = some f0 → f0 ≠ headerId →
      resolveLastUsed env r = .ok lu →
      r[3]? = some f3 → r[11]? = some f11 → r[14]? = some f14 →
      r[8]? = some f8 → pyInt (pyStrip f8) = none →
      decodeRow env r = .error .valueError) ∧
    (∀ pre st r post e, processRows env pre = .ok st →
      decodeRow env r = .error e →
      processRows env (pre ++ r :: post) = .error e) := by
  refine ⟨?_, ?_, ?_, ?_⟩
  · intro r f0 f10 h0 hne h10 hne10 hmdy
    have hlu : resolveLastUsed env r = .error .valueError := by
      rw [resolveLastUsed_present env r h10 hne10]
      simp [strptimeMDY, hmdy]
    exact decodeRow_error_body env r h0 hne (decodeBody_error_lastUsed env r hlu)
  · intro r f0 f10 f6 f16 h0 hne h10 he10 h6 hiu h16 hne16 hmdy
    have hlu : resolveLastUsed env r = .error .valueError := by
      rw [resolveLastUsed_install env r h10 he10 h6 hiu h16 hne16]
      simp [strptimeMDY, hmdy]
    exact decodeRow_error_body env r h0 hne (decodeBody_error_lastUsed env r hlu)
  · intro r f0 lu f3 f11 f14 f8 h0 hne hlu h3 h11 h14 h8 hcap
    have hsc := readScalars_error_capacity r h3 h11 h14 h8 hcap
    exact decodeRow_error_body env r h0 hne (decodeBody_error_scalars env r hlu hsc)
  · intro pre st r post e hp hd
    exact processRows_append_error env pre st r post e hp hd

/-- C7, witness: a row with unparsable last-used date "13/45/20" errors, and
a run containing it errors even with further rows pending. -/
theorem c7_witness :
    decodeRow envA rowBadDate = .error .valueError ∧
    processRows envA [rowGood, rowBadDate, rowGood] = .error .valueError := by
  constructor
  · exact (c7_fatal_parse envA).1 rowBadDate "1" "13/45/20" (by decide) (by decide)
      (by decide) (by decide) (by decide)
  · exact (c7_fatal_parse envA).2.2.2 [rowGood] ([tankGood], 0) rowBadDate [rowGood]
      .valueError (by decide)
      ((c7_fatal_parse envA).1 rowBadDate "1" "13/45/20" (by decide) (by decide)
        (by decide) (by decide) (by decide))
